import Mathlib

/-!
Shallow embedding of the OR40 key-drop bot orchestrator
(`src/or40_key_bot.py`) and proofs about the claims of its specification.

Modelling conventions:
* A `datetime` (JST) is an `Int`: minutes since an arbitrary epoch that is a
  midnight.  `hhmm dt` is the stored `"HH:MM"` string of `dt`, encoded as its
  minutes-of-day value in `[0, 1440)`; lexicographic comparison of
  zero-padded `"HH:MM"` strings coincides with numeric comparison of these
  values, and Python string equality with numeric equality.
* A calendar-day string `"YYYY-MM-DD"` (used by the once-per-day guards) is a
  `Nat` day identifier, a `"YYYY-MM-DD HH:MM"` minute key likewise.
* Discord I/O (channel resolution, message sends, renders) is abstracted by
  boolean environment fields saying whether the corresponding external call
  succeeds; message ids produced by sends are environment values.
* Load-bearing source fact: the module calls a function `parse_hhmm` at four
  places (lines 172, 2721, 3352-3354, 3711) but never defines it (only
  `parse_hhmm_dt` and `parse_hhmm_str` exist and no import provides it), so
  each of those calls raises `NameError` at run time, which the enclosing
  `try/except` swallows.  The embedding reproduces the resulting behaviour
  and marks each such place with a comment.
* `persist_used` is defined in the source but never called by any code path.
-/

namespace OR40

/-- Minutes-of-day value of the `"HH:MM"` rendering (`strftime`) of an
absolute time, source `hhmm` (line 112). -/
def hhmm (dt : Int) : Int := dt % 1440

/-- Source `parse_hhmm_dt` (line 120): replace hour/minute of `base` by the
given `"HH:MM"` value, keeping the calendar day of `base`. -/
def parse_hhmm_dt (s : Int) (base : Int) : Int := base - hhmm base + s

/-- Python `int(x or 1)` on an `int` field: `0` (falsy) becomes `1`. -/
def pyIntOr1 (n : Int) : Int := if n = 0 then 1 else n

/-- The persisted bot state, source dataclass `BotState` (lines 395-487).
Times (`"HH:MM"` strings) are minutes-of-day `Int`s, dates and minute keys
are `Nat` identifiers, dict fields are association lists.  The final three
fields (`pending_next_match_no`, `pending_keyhost_send`,
`pending_keyhost_send_at`) are NOT dataclass fields in the source: they are
attached to the instance by plain attribute assignment (lines 2071-2073,
2400-2401, ...), and read back with `getattr(..., default)`; consequently
`asdict` never serializes them and `load_state` never restores them. -/
structure BotState where
  key_channel_id : Option Int := none
  keyhost_channel_id : Option Int := none
  commentary_channel_id : Option Int := none
  replay_channel_id : Option Int := none
  mode : String := "reload"
  match_count : Int := 4
  match1_start : Int := 1335
  display_date_override : Option Nat := none
  match_no : Int := 1
  phase : String := "INIT"
  emergency_stop : Bool := false
  map_switch_time : Option Int := none
  map_switch_hhmm : Option Int := none
  map_remaining_min : Option Int := none
  key_pause_from : Option Int := none
  key_pause_to : Option Int := none
  auto_enabled : Bool := false
  checkin_closed : Bool := false
  keyhost_notified_once : Bool := false
  uncheckin_numbers : Option String := none
  uncheckin_calc_date : Option Nat := none
  checked_in_numbers : List String := []
  declined_numbers : List String := []
  forfeit_numbers : List String := []
  checkin_phase1_sent_date : Option Nat := none
  checkin_phase2_sent_date : Option Nat := none
  checkin_phase3_sent_date : Option Nat := none
  checkin_phase4_sent_date : Option Nat := none
  checkin_status_message_id : Option Int := none
  checkin_status_last_min : Option Nat := none
  ops_header_last_min : Option Nat := none
  replay_rank_match_no : Option Int := none
  replay_rank1 : Option String := none
  replay_rank2 : Option String := none
  replay_rank3 : Option String := none
  replay_rank_stage : Int := 0
  custom_key : Option String := none
  planned_departure : Option Int := none
  departure_time : Option Int := none
  last_key_image_msg_id : Option Int := none
  last_key_embed_msg_id : Option Int := none
  delete_at_iso : Option Int := none
  last_keyhost_image_msg_id : Option Int := none
  last_keyhost_key_msg_id : Option Int := none
  ops_panel_channel_id : Option Int := none
  ops_panel_message_id : Option Int := none
  replay_request_message_ids : List (String × Int) := []
  replay_request_channel_ids : List (String × Int) := []
  used_keys : List String := []
  pending_next_match_no : Option Int := none
  pending_keyhost_send : Bool := false
  pending_keyhost_send_at : Option Int := none
deriving DecidableEq

/-- Source `is_in_pause_window` (lines 125-133): both bounds configured and
`start <= now < end`, bounds re-anchored to `now`'s calendar day. -/
def is_in_pause_window (st : BotState) (now : Int) : Bool :=
  match st.key_pause_from, st.key_pause_to with
  | some f, some t =>
      decide (parse_hhmm_dt f now ≤ now) && decide (now < parse_hhmm_dt t now)
  | _, _ => false

/-- Source `apply_map_remaining_minutes` (lines 135-152): derive the map
switch time and the key-distribution pause window from the remaining
minutes; lead is 7 minutes for match 1, else 4. -/
def apply_map_remaining_minutes (st : BotState) (now remaining_min : Int) :
    BotState :=
  let rem := max 0 remaining_min
  let switch_dt := now + rem
  let lead : Int := if pyIntOr1 st.match_no = 1 then 7 else 4
  { st with
    map_remaining_min := some rem
    map_switch_hhmm := some (hhmm switch_dt)
    map_switch_time := some (hhmm switch_dt)
    key_pause_from := some (hhmm (switch_dt - lead))
    key_pause_to := some (hhmm switch_dt) }

/-- Source `recompute_pause_window_from_state` (lines 155-197).  The
preferred branch parses `map_switch_time` with the undefined name
`parse_hhmm` (line 172); the `NameError` is swallowed and `switch_dt` stays
`None`, so the remaining-minutes fallback is the branch that actually runs;
with no remaining minutes the function returns without touching the state. -/
def recompute_pause_window_from_state (st : BotState) (now : Int) : BotState :=
  let match_no := pyIntOr1 st.match_no
  match st.map_remaining_min with
  | none => st
  | some rem0 =>
      let rem := max 0 rem0
      let switch_dt := now + rem
      let lead : Int := if match_no = 1 then 7 else 4
      { st with
        map_switch_hhmm := some (hhmm switch_dt)
        map_switch_time := some (hhmm switch_dt)
        key_pause_from := some (hhmm (switch_dt - lead))
        key_pause_to := some (hhmm switch_dt) }

/-- Zero-padded 4-digit decimal rendering of `n`, the Python format spec
`04d` applied to a draw in `0..9999`. -/
def pad4 (n : Nat) : String :=
  let s := toString n
  String.mk (List.replicate (4 - s.length) '0') ++ s

/-- The key string built from one random draw, source line 379. -/
def key_of (n : Nat) : String := "OR40" ++ pad4 n

/-- Loop body of source `generate_key` (lines 377-383).  `draws i` is the
`i`-th value of the `random.randint(0, 9999)` stream (taken mod 10000 to
embed the range), `used` is the membership test of the history set.  The
`used.add(k)` just before the successful return mutates only the caller's
local copy of the set (see `keyhost_notify_once`: `used_set()` returns a
fresh copy and `persist_used` is never called), so it affects nothing. -/
def generate_key_aux (draws : Nat → Nat) (used : String → Bool) :
    Nat → Nat → String
  | i, 0 => key_of (draws i % 10000)
  | i, fuel + 1 =>
      let k := key_of (draws i % 10000)
      if used k then generate_key_aux draws used (i + 1) fuel else k

/-- Source `generate_key` (lines 377-383): up to 20000 attempts against the
history; once the attempts are exhausted, the final line returns one more
random key without checking it against `used` and without any error. -/
def generate_key (draws : Nat → Nat) (used : String → Bool) : String :=
  generate_key_aux draws used 0 20000

/-- Source `persist_used` (lines 645-646): keep the (sorted) last 20000 used
keys.  No code path in the module ever calls it. -/
def persist_used (used : List String) : List String :=
  let l := used.mergeSort (fun a b => decide (a ≤ b))
  l.drop (l.length - 20000)

/-- Source `schedule_delete_after_departure` (lines 1722-1736): schedule the
cleanup one minute after the departure time (re-anchored to `nowLocal`,
pushed to the next day when more than a minute in the past).  This helper
uses naive `datetime.now()`, hence the separate `nowLocal` argument. -/
def schedule_delete_after_departure (st : BotState) (nowLocal : Int) :
    BotState :=
  match st.departure_time with
  | none => st
  | some d =>
      let dep0 := parse_hhmm_dt d nowLocal
      let dep := if dep0 < nowLocal - 1 then dep0 + 1440 else dep0
      { st with delete_at_iso := some (dep + 1) }

/-- External-call outcomes for `KeyhostView.queue_ready`. -/
structure QrEnv where
  keyChannelResolves : Bool := true
  generalSendOk : Bool := true
  generalMsgId : Option Int := none
  khImgReplaced : Bool := false
  khImgMsgId : Option Int := none

/-- Source `KeyhostView.queue_ready` (lines 2699-2863), the
departure-confirmation button.  After the emergency-stop / key / channel
guards it computes the confirmed departure: `dep_candidate = now + 2min`,
and the comparison against `planned_departure` (lines 2719-2725, whose
comment states that an earlier confirmation must not pre-empt the planned
time) calls the undefined name `parse_hhmm`, so the `NameError` is swallowed
and `dep` always stays `dep_candidate`.  The remainder of the handler only
posts/edits messages and caches their ids. -/
def queue_ready (env : QrEnv) (st : BotState) (now nowLocal : Int) :
    BotState :=
  if st.emergency_stop then st
  else if st.custom_key = none then st
  else if st.key_channel_id = none then st
  else
    let dep_candidate := now + 2
    let dep := dep_candidate
    let st1 := { st with
      departure_time := some (hhmm dep), phase := "DEPART_CONFIRMED" }
    let st2 := schedule_delete_after_departure st1 nowLocal
    if env.keyChannelResolves = false then st2
    else if env.generalSendOk = false then st2
    else
      let st3 := { st2 with last_key_image_msg_id := env.generalMsgId }
      if env.khImgReplaced then
        { st3 with last_keyhost_image_msg_id := env.khImgMsgId }
      else st3

/-- External-call outcomes for `keyhost_notify_once`.  `manualOverride`
says the `reason` starts with `"manual"` or contains `"replay_done"`;
`t0cfg` is `load_entry_tournament_start_time()` (the configured tournament
start, default 22:00). -/
structure KhEnv where
  resolves : Bool := true
  draws : Nat → Nat := fun _ => 0
  renderOk : Bool := true
  imgSendOk : Bool := true
  keySendOk : Bool := true
  imgMsgId : Int := 0
  keyMsgId : Int := 0
  manualOverride : Bool := false
  t0cfg : Int := 1320

/-- Source `keyhost_notify_once` (lines 3289-3427), the credential
distribution: clear the previous keyhost messages, reset to PREP, generate a
fresh key from the history copy (`used_set()`; the copy is discarded and
`persist_used` is never called, so `used_keys` never grows), fix the planned
departure, post the key image and the key-embed message (the credential
send), and on overall success set `keyhost_notified_once`.  The round-1
"push the planned start past the pause window" adjustment (lines 3348-3358)
calls the undefined name `parse_hhmm`, so the `NameError` is swallowed and
the planned time stays unchanged.  Returns the new state, the `ok` flag, and
the number of credential (key-embed) messages actually delivered.  The
function itself never consults `keyhost_notified_once` or
`emergency_stop`. -/
def keyhost_notify_once (env : KhEnv) (st : BotState) (now : Int) :
    BotState × Bool × Nat :=
  if st.keyhost_channel_id = none then (st, false, 0)
  else if env.resolves = false then (st, false, 0)
  else
    let st1 := { st with
      last_keyhost_image_msg_id := none, last_keyhost_key_msg_id := none,
      phase := "PREP", custom_key := none, departure_time := none,
      delete_at_iso := none }
    let k := generate_key env.draws (fun s => st1.used_keys.contains s)
    let st2 := { st1 with custom_key := some k }
    let planned1 :=
      if env.manualOverride then some (hhmm (now + 3))
      else st2.planned_departure
    let planned2 :=
      match planned1 with
      | none => hhmm (now + 3)
      | some p => if p = 0 then hhmm (now + 3) else p
    let st3 := { st2 with planned_departure := some planned2 }
    let st4 :=
      if env.renderOk && env.imgSendOk then
        { st3 with last_keyhost_image_msg_id := some env.imgMsgId }
      else st3
    if env.keySendOk = false then (st4, false, 0)
    else
      let st5 := { st4 with last_keyhost_key_msg_id := some env.keyMsgId }
      let st6 := { st5 with keyhost_notified_once := true }
      (st6, true, 1)

/-- Source `ReplaySubmitView._after_submit_common` (lines 2393-2417), the
next-match distribution trigger run after a replay submission: when a next
match is pending and `now` is in the pause window, arm the deferred send
(`pending_keyhost_send_at = key_pause_to`) and announce the deferral;
otherwise switch to the next match and distribute.  Returns the new state,
whether the deferral was announced, and the credential sends. -/
def after_submit_common (env : KhEnv) (st : BotState) (now : Int) :
    BotState × Bool × Nat :=
  match st.pending_next_match_no with
  | none => (st, false, 0)
  | some nxt =>
      if is_in_pause_window st now then
        let st1 := { st with
          pending_keyhost_send := true,
          pending_keyhost_send_at := st.key_pause_to }
        (st1, st.key_pause_to.isSome, 0)
      else
        let st1 := { st with match_no := nxt }
        let r := keyhost_notify_once env st1 now
        (r.1, false, r.2.2)

/-- External-call outcomes for `ReplaySubmitView.replay_forgot`. -/
structure RfEnv where
  channelFound : Bool := true
  sendOk : Bool := true

/-- The ranked target selected for a given escalation stage, source lines
2472-2481 (`stage <= 0` picks rank 1, `1` rank 2, `2` rank 3, else done). -/
def rank_slot (st : BotState) (stage : Int) : Option String :=
  if stage ≤ 0 then st.replay_rank1
  else if stage = 1 then st.replay_rank2
  else if stage = 2 then st.replay_rank3
  else none

/-- Source `ReplaySubmitView.replay_forgot` (lines 2451-2516), one "result
missing" report: reset the stage when the report is for a different match;
contact the current ranked target when that slot is configured and the
channel send succeeds, and only then advance the stage (`min(stage+1, 3)`);
on a blank slot, a missing channel, or a failed send only the operators are
notified and the stage is unchanged.  Returns the new state and the number
that was actually contacted (if any). -/
def replay_forgot (env : RfEnv) (st : BotState) (matchNo : Int) :
    BotState × Option String :=
  let st1 :=
    if st.replay_rank_match_no ≠ some matchNo then
      { st with replay_rank_match_no := some matchNo, replay_rank_stage := 0 }
    else st
  let stage := st1.replay_rank_stage
  match rank_slot st1 stage with
  | some num =>
      if env.channelFound && env.sendOk then
        ({ st1 with replay_rank_stage := min (stage + 1) 3 }, some num)
      else (st1, none)
  | none => (st1, none)

/-- A sequence of "result missing" reports for the same match. -/
def replay_forgot_seq (envs : List RfEnv) (st : BotState) (matchNo : Int) :
    BotState :=
  envs.foldl (fun s e => (replay_forgot e s matchNo).1) st

/-- Source `reset_to_before_match1` (lines 572-631), the full reset: back to
match 1 / INIT, configuration (channel ids, ops panel ids, mode, match
count, match-1 start) captured and restored, round and automation fields
cleared, `planned_departure` re-seeded with the configured tournament start
`t0cfg`.  The dynamically attached `pending_next_match_no`,
`pending_keyhost_send` and `pending_keyhost_send_at` are never assigned
anywhere in the function, so they keep their values. -/
def reset_to_before_match1 (st : BotState) (t0cfg : Int) : BotState :=
  { st with
    match_no := 1
    phase := "INIT"
    display_date_override := none
    custom_key := none
    planned_departure := some t0cfg
    departure_time := none
    map_switch_time := none
    map_switch_hhmm := none
    map_remaining_min := none
    key_pause_from := none
    key_pause_to := none
    auto_enabled := false
    checkin_closed := false
    keyhost_notified_once := false
    uncheckin_numbers := none
    emergency_stop := false
    last_key_image_msg_id := none
    last_key_embed_msg_id := none
    last_keyhost_image_msg_id := none
    last_keyhost_key_msg_id := none
    replay_request_message_ids := []
    replay_request_channel_ids := []
    delete_at_iso := none }

/-- Fixed default channel ids, source lines 102-103. -/
def DEFAULT_KEY_CHANNEL_ID : Int := 1442840272730853492

/-- Fixed default commentary channel id, source line 103. -/
def DEFAULT_COMMENTARY_CHANNEL_ID : Int := 1442840271539929195

/-- `save_state` (lines 522-524) followed by `load_state` (lines 494-519),
i.e. a process restart.  `asdict` writes exactly the dataclass fields, so
the dynamically attached pending-send attributes are absent from the JSON
and come back as their `getattr` defaults; `load_state` filters unknown keys
and fills in the default key/commentary channels when unset. -/
def save_load_roundtrip (st : BotState) : BotState :=
  { st with
    pending_next_match_no := none
    pending_keyhost_send := false
    pending_keyhost_send_at := none
    key_channel_id := some (st.key_channel_id.getD DEFAULT_KEY_CHANNEL_ID)
    commentary_channel_id :=
      some (st.commentary_channel_id.getD DEFAULT_COMMENTARY_CHANNEL_ID) }

/-- The checkin-close time `CHECKIN_CLOSE_HHMM = "21:58"` (line 3197) in
minutes-of-day. -/
def CHECKIN_CLOSE_MIN : Int := 1318

/-- The automatic key-distribution time `AUTO_KEYHOST_HHMM = "22:00"`
(line 3198) in minutes-of-day. -/
def AUTO_KEYHOST_MIN : Int := 1320

/-- Environment of one `automation_loop` tick: `eventDay` is
`is_event_day(now)` (configured event date equals today), `t0` is
`get_tournament_start_dt()` as an absolute time, `today`/`minuteKey`
identify `now`'s calendar day and minute, the `phaseNSendAny` flags say
whether at least one roster-channel send of that checkin phase succeeded,
`unoperatedCsv` is the computed not-yet-operated roster list, the `status*`
fields describe the checkin-status channel I/O, and `kh` the keyhost
distribution I/O. -/
structure TickEnv where
  eventDay : Bool := true
  t0 : Option Int := none
  today : Nat := 0
  minuteKey : Nat := 0
  phase1SendAny : Bool := true
  phase2SendAny : Bool := true
  unoperatedCsv : String := ""
  statusChannelOk : Bool := true
  statusEditOk : Bool := true
  statusSendOk : Bool := true
  statusMsgId : Int := 0
  kh : KhEnv := {}

/-- Source `send_checkin_phase1` (lines 3430-3455): guarded by the
per-calendar-day sent date; when the guard passes the message is attempted
to every roster channel, and the date is recorded if any send succeeded.
The returned flag says whether sends were attempted (the phase fired). -/
def send_checkin_phase1 (env : TickEnv) (st : BotState) (force : Bool) :
    BotState × Bool :=
  if force = false ∧ st.checkin_phase1_sent_date = some env.today then
    (st, false)
  else
    (if env.phase1SendAny then
       { st with checkin_phase1_sent_date := some env.today }
     else st, true)

/-- Source `send_checkin_phase2` (lines 3458-3489): same shape as phase 1
but only to roster members who have not checked in / declined /
forfeited. -/
def send_checkin_phase2 (env : TickEnv) (st : BotState) (force : Bool) :
    BotState × Bool :=
  if force = false ∧ st.checkin_phase2_sent_date = some env.today then
    (st, false)
  else
    (if env.phase2SendAny then
       { st with checkin_phase2_sent_date := some env.today }
     else st, true)

/-- Source `refresh_unoperated_cache` (lines 3563-3576): once per minute,
cache the not-yet-operated roster numbers for the ops panel header. -/
def refresh_unoperated_cache (env : TickEnv) (st : BotState) (force : Bool) :
    BotState :=
  if force = false ∧ st.ops_header_last_min = some env.minuteKey then st
  else
    { st with
      uncheckin_numbers := some env.unoperatedCsv
      ops_header_last_min := some env.minuteKey }

/-- Source `update_checkin_status_channel` (lines 3523-3560): once per
minute, edit (or re-post) the checkin status message in the fixed
notification channel. -/
def update_checkin_status_channel (env : TickEnv) (st : BotState)
    (force : Bool) : BotState :=
  if force = false ∧ st.checkin_status_last_min = some env.minuteKey then st
  else if env.statusChannelOk = false then st
  else
    match st.checkin_status_message_id with
    | some _ =>
        if env.statusEditOk then
          { st with checkin_status_last_min := some env.minuteKey }
        else
          let st1 := { st with checkin_status_message_id := none }
          if env.statusSendOk then
            { st1 with
              checkin_status_message_id := some env.statusMsgId
              checkin_status_last_min := some env.minuteKey }
          else st1
    | none =>
        if env.statusSendOk then
          { st with
            checkin_status_message_id := some env.statusMsgId
            checkin_status_last_min := some env.minuteKey }
        else st

/-- Source `send_checkin_phase4_golive` (lines 3580-3598): guarded by the
per-day sent date; the broadcast goes through `send_to_key_channel`, which
swallows every delivery error, so the date is always recorded once due. -/
def send_checkin_phase4_golive (env : TickEnv) (st : BotState)
    (force : Bool) : BotState × Bool :=
  if force = false ∧ st.checkin_phase4_sent_date = some env.today then
    (st, false)
  else ({ st with checkin_phase4_sent_date := some env.today }, true)

/-- Result of the checkin portion of a tick: new state, new value of the
process-global header-refresh minute, and which phases fired. -/
structure CbOut where
  st : BotState
  g : Option Nat
  p1 : Bool
  p2 : Bool
  p3 : Bool
  p4 : Bool

/-- Tick step: phase 1 fires from `t0 - 30m` on (line 3682). -/
def cb1 (env : TickEnv) (st : BotState) (now t0 : Int) : BotState × Bool :=
  if t0 - 30 ≤ now then send_checkin_phase1 env st false else (st, false)

/-- Tick step: phase 2 fires from `t0 - 10m` on (line 3684). -/
def cb2 (env : TickEnv) (st : BotState) (now t0 : Int) : BotState × Bool :=
  if t0 - 10 ≤ now then send_checkin_phase2 env st false else (st, false)

/-- Tick step: the once-per-minute ops-panel header refresh inside
`[t0 - 5m, t0]` on the event day (lines 3687-3694), throttled by the
process-global `_last_ops_header_refresh_minute` (modelled by `g`);
`update_ops_panel_guild` itself only edits a message. -/
def cb_hdr (env : TickEnv) (g : Option Nat) (st : BotState) (now t0 : Int) :
    BotState × Option Nat :=
  if env.eventDay = true ∧ t0 - 5 ≤ now ∧ now ≤ t0 then
    if g = some env.minuteKey then (st, g)
    else (refresh_unoperated_cache env st false, some env.minuteKey)
  else (st, g)

/-- Tick step: phase 3 (operator status snapshot) from `t0 - 5m` on, once
per calendar day (lines 3696-3703). -/
def cb3 (env : TickEnv) (st : BotState) (now t0 : Int) : BotState × Bool :=
  if t0 - 5 ≤ now ∧ st.checkin_phase3_sent_date ≠ some env.today then
    ({ update_checkin_status_channel env
         (refresh_unoperated_cache env st false) true with
       checkin_phase3_sent_date := some env.today }, true)
  else (st, false)

/-- Tick step: phase 4 (go-live broadcast) from `t0 - 2m` on (line 3705). -/
def cb4 (env : TickEnv) (st : BotState) (now t0 : Int) : BotState × Bool :=
  if t0 - 2 ≤ now then send_checkin_phase4_golive env st false
  else (st, false)

/-- The checkin-automation portion of one `automation_loop` tick (lines
3675-3706): with a configured tournament start `t0`, run the four phase
steps and the header refresh in source order; without one, do nothing. -/
def checkin_block (env : TickEnv) (g : Option Nat) (st : BotState)
    (now : Int) : CbOut :=
  match env.t0 with
  | none => { st := st, g := g, p1 := false, p2 := false, p3 := false, p4 := false }
  | some t0 =>
      let r1 := cb1 env st now t0
      let r2 := cb2 env r1.1 now t0
      let hdr := cb_hdr env g r2.1 now t0
      let r3 := cb3 env hdr.1 now t0
      let r4 := cb4 env r3.1 now t0
      { st := r4.1, g := hdr.2, p1 := r1.2, p2 := r2.2, p3 := r3.2, p4 := r4.2 }

/-- Observable effects of one tick. -/
structure TickEff where
  credentialSends : Nat := 0
  phase1Attempt : Bool := false
  phase2Attempt : Bool := false
  phase3Attempt : Bool := false
  phase4Attempt : Bool := false

/-- Result of one tick. -/
structure TickOut where
  st : BotState
  g : Option Nat
  eff : TickEff

/-- The 21:58 checkin close (lines 3732-3736): on the event day, once the
`"HH:MM"` of `now` reaches `CHECKIN_CLOSE_HHMM` and checkin is not yet
closed, close checkin and enable the automation. -/
def close_step (st : BotState) (now : Int) : BotState :=
  if CHECKIN_CLOSE_MIN ≤ hhmm now ∧ st.checkin_closed = false then
    { st with checkin_closed := true, auto_enabled := true }
  else st

/-- The guard of the 22:00 automatic match-1 distribution (lines
3738-3739). -/
def auto_key_due (st : BotState) (now : Int) : Bool :=
  st.auto_enabled && decide (st.match_no = 1) &&
    !st.keyhost_notified_once && decide (AUTO_KEYHOST_MIN ≤ hhmm now) &&
    !(is_in_pause_window st now || st.emergency_stop)

/-- One iteration of source `automation_loop` (lines 3664-3744): the checkin
block; then the deferred-distribution release (lines 3709-3726), which when
armed parses `pending_keyhost_send_at` with the undefined name `parse_hhmm`,
so the `NameError` is swallowed by its `try/except` and the block never
clears the marker and never distributes (hence no state change here); then,
only on the event day, the 21:58 checkin close and the guarded 22:00
automatic match-1 distribution. -/
def automation_tick (env : TickEnv) (g : Option Nat) (st : BotState)
    (now : Int) : TickOut :=
  let cb := checkin_block env g st now
  if env.eventDay = false then
    { st := cb.st, g := cb.g
      eff := { credentialSends := 0, phase1Attempt := cb.p1,
               phase2Attempt := cb.p2, phase3Attempt := cb.p3,
               phase4Attempt := cb.p4 } }
  else
    let st3 := close_step cb.st now
    if auto_key_due st3 now then
      let r := keyhost_notify_once env.kh st3 now
      { st := r.1, g := cb.g
        eff := { credentialSends := r.2.2, phase1Attempt := cb.p1,
                 phase2Attempt := cb.p2, phase3Attempt := cb.p3,
                 phase4Attempt := cb.p4 } }
    else
      { st := st3, g := cb.g
        eff := { credentialSends := 0, phase1Attempt := cb.p1,
                 phase2Attempt := cb.p2, phase3Attempt := cb.p3,
                 phase4Attempt := cb.p4 } }

/-- All external keyhost-channel calls succeed. -/
def khAllOk : KhEnv := {}

/-- A PREP state with a configured keyhost channel and the 22:00 planned
departure, ready for distribution. -/
def prepState : BotState :=
  { keyhost_channel_id := some 5, phase := "PREP",
    planned_departure := some 1320 }

/-- Event-day tick environment with no tournament start configured. -/
def tickEnvA : TickEnv := { eventDay := true, t0 := none }

/-- The C1 scenario state: round 1, automation enabled, checkin closed,
configured start 22:00, no blackout, not yet notified. -/
def tickStateA : BotState :=
  { keyhost_channel_id := some 5, match_no := 1, auto_enabled := true,
    checkin_closed := true, planned_departure := some 1320 }

/-- A CREDENTIAL_SENT state whose planned departure 22:15 lies well after
`now = 22:00`. -/
def confirmState : BotState :=
  { custom_key := some "OR400123", key_channel_id := some 7,
    phase := "KEYHOST_SENT", planned_departure := some 1335 }

/-- A post-match state with a pending next match while the pause window
`[22:06, 22:10)` is active. -/
def pauseSubmitState : BotState :=
  { pending_next_match_no := some 3, key_pause_from := some 1326,
    key_pause_to := some 1330, keyhost_channel_id := some 5 }

/-- A state with an armed deferred send (`pending_keyhost_send_at = 22:10`)
whose release tick is observed at 22:30 with no active pause window. -/
def pendingTickState : BotState :=
  { keyhost_channel_id := some 5, match_no := 2, auto_enabled := true,
    checkin_closed := true, pending_next_match_no := some 3,
    pending_keyhost_send := true, pending_keyhost_send_at := some 1330 }

/-- All escalation sends succeed. -/
def escEnv : RfEnv := {}

/-- Ranked targets `[A, blank, C]` for match 1, stage 0. -/
def escState : BotState :=
  { replay_rank_match_no := some 1, replay_rank1 := some "001",
    replay_rank3 := some "003" }

/-- A single configured rank-1 target for match 4. -/
def escStateB : BotState :=
  { replay_rank_match_no := some 4, replay_rank1 := some "002" }

/-- A state whose only interesting content is an armed deferred send. -/
def pendSt : BotState :=
  { pending_keyhost_send := true, pending_keyhost_send_at := some 1330,
    pending_next_match_no := some 2 }

/-- Round 1 state for the pause calculator. -/
def pauseSt1 : BotState := { match_no := 1 }

/-- Round 2 state with 5 remaining minutes recorded. -/
def pauseSt2 : BotState := { match_no := 2, map_remaining_min := some 5 }

/-- The whole credential space: every key the generator can emit. -/
def allKeys : List String := (List.range 10000).map key_of

/-- A mid-event state as persisted after a successful distribution and all
four checkin phases on day 77, with a deferred send still armed in
memory. -/
def crashSt : BotState :=
  { keyhost_channel_id := some 5, match_no := 1, auto_enabled := true,
    checkin_closed := true, keyhost_notified_once := true,
    checkin_phase1_sent_date := some 77, checkin_phase2_sent_date := some 77,
    checkin_phase3_sent_date := some 77, checkin_phase4_sent_date := some 77,
    pending_keyhost_send := true, pending_keyhost_send_at := some 1330 }

/-- Event-day tick environment for day 77 with the tournament start at
absolute minute 90000 (12:00 of day 62). -/
def crashEnv : TickEnv := { eventDay := true, t0 := some 90000, today := 77 }

/-- An event-day state shortly before close: checkin still open, automation
still off. -/
def closeSt : BotState := { keyhost_channel_id := some 5, match_no := 2 }

lemma cb1_frame (env : TickEnv) (st : BotState) (now t0 : Int) :
    (cb1 env st now t0).1.auto_enabled = st.auto_enabled ∧
    (cb1 env st now t0).1.checkin_closed = st.checkin_closed ∧
    (cb1 env st now t0).1.keyhost_notified_once = st.keyhost_notified_once ∧
    (cb1 env st now t0).1.checkin_phase2_sent_date
      = st.checkin_phase2_sent_date ∧
    (cb1 env st now t0).1.checkin_phase3_sent_date
      = st.checkin_phase3_sent_date ∧
    (cb1 env st now t0).1.checkin_phase4_sent_date
      = st.checkin_phase4_sent_date := by
  unfold cb1 send_checkin_phase1
  split_ifs <;> exact ⟨rfl, rfl, rfl, rfl, rfl, rfl⟩

lemma cb2_frame (env : TickEnv) (st : BotState) (now t0 : Int) :
    (cb2 env st now t0).1.auto_enabled = st.auto_enabled ∧
    (cb2 env st now t0).1.checkin_closed = st.checkin_closed ∧
    (cb2 env st now t0).1.keyhost_notified_once = st.keyhost_notified_once ∧
    (cb2 env st now t0).1.checkin_phase3_sent_date
      = st.checkin_phase3_sent_date ∧
    (cb2 env st now t0).1.checkin_phase4_sent_date
      = st.checkin_phase4_sent_date := by
  unfold cb2 send_checkin_phase2
  split_ifs <;> exact ⟨rfl, rfl, rfl, rfl, rfl⟩

lemma cb_hdr_frame (env : TickEnv) (g : Option Nat) (st : BotState)
    (now t0 : Int) :
    (cb_hdr env g st now t0).1.auto_enabled = st.auto_enabled ∧
    (cb_hdr env g st now t0).1.checkin_closed = st.checkin_closed ∧
    (cb_hdr env g st now t0).1.keyhost_notified_once
      = st.keyhost_notified_once ∧
    (cb_hdr env g st now t0).1.checkin_phase3_sent_date
      = st.checkin_phase3_sent_date ∧
    (cb_hdr env g st now t0).1.checkin_phase4_sent_date
      = st.checkin_phase4_sent_date := by
  unfold cb_hdr refresh_unoperated_cache
  split_ifs <;> exact ⟨rfl, rfl, rfl, rfl, rfl⟩

lemma cb3_frame (env : TickEnv) (st : BotState) (now t0 : Int) :
    (cb3 env st now t0).1.auto_enabled = st.auto_enabled ∧
    (cb3 env st now t0).1.checkin_closed = st.checkin_closed ∧
    (cb3 env st now t0).1.keyhost_notified_once = st.keyhost_notified_once ∧
    (cb3 env st now t0).1.checkin_phase4_sent_date
      = st.checkin_phase4_sent_date := by
  unfold cb3 update_checkin_status_channel refresh_unoperated_cache
  split_ifs <;> try exact ⟨rfl, rfl, rfl, rfl⟩
  all_goals (split <;> exact ⟨rfl, rfl, rfl, rfl⟩)

lemma cb4_frame (env : TickEnv) (st : BotState) (now t0 : Int) :
    (cb4 env st now t0).1.auto_enabled = st.auto_enabled ∧
    (cb4 env st now t0).1.checkin_closed = st.checkin_closed ∧
    (cb4 env st now t0).1.keyhost_notified_once = st.keyhost_notified_once := by
  unfold cb4 send_checkin_phase4_golive
  split_ifs <;> exact ⟨rfl, rfl, rfl⟩

lemma checkin_block_frame (env : TickEnv) (g : Option Nat) (st : BotState)
    (now : Int) :
    (checkin_block env g st now).st.auto_enabled = st.auto_enabled ∧
    (checkin_block env g st now).st.checkin_closed = st.checkin_closed ∧
    (checkin_block env g st now).st.keyhost_notified_once
      = st.keyhost_notified_once := by
  unfold checkin_block
  cases h0 : env.t0 with
  | none => exact ⟨rfl, rfl, rfl⟩
  | some t0 =>
      dsimp only
      refine ⟨?_, ?_, ?_⟩
      · rw [(cb4_frame env _ now t0).1, (cb3_frame env _ now t0).1,
          (cb_hdr_frame env g _ now t0).1, (cb2_frame env _ now t0).1,
          (cb1_frame env st now t0).1]
      · rw [(cb4_frame env _ now t0).2.1, (cb3_frame env _ now t0).2.1,
          (cb_hdr_frame env g _ now t0).2.1, (cb2_frame env _ now t0).2.1,
          (cb1_frame env st now t0).2.1]
      · rw [(cb4_frame env _ now t0).2.2, (cb3_frame env _ now t0).2.2.1,
          (cb_hdr_frame env g _ now t0).2.2.1, (cb2_frame env _ now t0).2.2.1,
          (cb1_frame env st now t0).2.2.1]

lemma cb1_p_of_sent (env : TickEnv) (st : BotState) (now t0 : Int)
    (h : st.checkin_phase1_sent_date = some env.today) :
    (cb1 env st now t0).2 = false := by
  unfold cb1 send_checkin_phase1
  split_ifs <;> simp_all

lemma cb2_p_of_sent (env : TickEnv) (st : BotState) (now t0 : Int)
    (h : st.checkin_phase2_sent_date = some env.today) :
    (cb2 env st now t0).2 = false := by
  unfold cb2 send_checkin_phase2
  split_ifs <;> simp_all

lemma cb3_p_of_sent (env : TickEnv) (st : BotState) (now t0 : Int)
    (h : st.checkin_phase3_sent_date = some env.today) :
    (cb3 env st now t0).2 = false := by
  unfold cb3
  split_ifs <;> simp_all

lemma cb4_p_of_sent (env : TickEnv) (st : BotState) (now t0 : Int)
    (h : st.checkin_phase4_sent_date = some env.today) :
    (cb4 env st now t0).2 = false := by
  unfold cb4 send_checkin_phase4_golive
  split_ifs <;> simp_all

lemma checkin_block_p1_of_sent (env : TickEnv) (g : Option Nat)
    (st : BotState) (now : Int)
    (h : st.checkin_phase1_sent_date = some env.today) :
    (checkin_block env g st now).p1 = false := by
  unfold checkin_block
  cases h0 : env.t0 with
  | none => rfl
  | some t0 =>
      dsimp only
      exact cb1_p_of_sent env st now t0 h

lemma checkin_block_p2_of_sent (env : TickEnv) (g : Option Nat)
    (st : BotState) (now : Int)
    (h : st.checkin_phase2_sent_date = some env.today) :
    (checkin_block env g st now).p2 = false := by
  unfold checkin_block
  cases h0 : env.t0 with
  | none => rfl
  | some t0 =>
      dsimp only
      exact cb2_p_of_sent env _ now t0
        (((cb1_frame env st now t0).2.2.2.1).trans h)

lemma checkin_block_p3_of_sent (env : TickEnv) (g : Option Nat)
    (st : BotState) (now : Int)
    (h : st.checkin_phase3_sent_date = some env.today) :
    (checkin_block env g st now).p3 = false := by
  unfold checkin_block
  cases h0 : env.t0 with
  | none => rfl
  | some t0 =>
      dsimp only
      refine cb3_p_of_sent env _ now t0 ?_
      rw [(cb_hdr_frame env g _ now t0).2.2.2.1,
        (cb2_frame env _ now t0).2.2.2.1,
        (cb1_frame env st now t0).2.2.2.2.1, h]

lemma checkin_block_p4_of_sent (env : TickEnv) (g : Option Nat)
    (st : BotState) (now : Int)
    (h : st.checkin_phase4_sent_date = some env.today) :
    (checkin_block env g st now).p4 = false := by
  unfold checkin_block
  cases h0 : env.t0 with
  | none => rfl
  | some t0 =>
      dsimp only
      refine cb4_p_of_sent env _ now t0 ?_
      rw [(cb3_frame env _ now t0).2.2.2,
        (cb_hdr_frame env g _ now t0).2.2.2.2,
        (cb2_frame env _ now t0).2.2.2.2,
        (cb1_frame env st now t0).2.2.2.2.2, h]

lemma keyhost_notify_once_frame (env : KhEnv) (st : BotState) (now : Int) :
    (keyhost_notify_once env st now).1.auto_enabled = st.auto_enabled ∧
    (keyhost_notify_once env st now).1.checkin_closed = st.checkin_closed := by
  unfold keyhost_notify_once
  dsimp only
  split_ifs <;> exact ⟨rfl, rfl⟩

lemma close_step_sets (st : BotState) (now : Int)
    (h1 : CHECKIN_CLOSE_MIN ≤ hhmm now) (h2 : st.checkin_closed = false) :
    (close_step st now).checkin_closed = true ∧
    (close_step st now).auto_enabled = true := by
  unfold close_step
  rw [if_pos ⟨h1, h2⟩]
  exact ⟨rfl, rfl⟩

lemma close_step_id_of_early (st : BotState) (now : Int)
    (h : hhmm now < CHECKIN_CLOSE_MIN) : close_step st now = st := by
  unfold close_step
  rw [if_neg (by rintro ⟨ha, -⟩; omega)]

lemma close_step_flag (st : BotState) (now : Int) :
    (close_step st now).keyhost_notified_once = st.keyhost_notified_once := by
  unfold close_step
  split_ifs <;> rfl

lemma auto_key_due_false_of_flag (st : BotState) (now : Int)
    (h : st.keyhost_notified_once = true) : auto_key_due st now = false := by
  unfold auto_key_due
  rw [h]
  simp

lemma auto_key_due_false_of_early (st : BotState) (now : Int)
    (h : hhmm now < AUTO_KEYHOST_MIN) : auto_key_due st now = false := by
  unfold auto_key_due
  have hd : decide (AUTO_KEYHOST_MIN ≤ hhmm now) = false := by
    simp only [decide_eq_false_iff_not]
    omega
  rw [hd]
  simp

lemma automation_tick_eff_phases (env : TickEnv) (g : Option Nat)
    (st : BotState) (now : Int) :
    (automation_tick env g st now).eff.phase1Attempt
      = (checkin_block env g st now).p1 ∧
    (automation_tick env g st now).eff.phase2Attempt
      = (checkin_block env g st now).p2 ∧
    (automation_tick env g st now).eff.phase3Attempt
      = (checkin_block env g st now).p3 ∧
    (automation_tick env g st now).eff.phase4Attempt
      = (checkin_block env g st now).p4 := by
  unfold automation_tick
  dsimp only
  split_ifs <;> exact ⟨rfl, rfl, rfl, rfl⟩

lemma automation_tick_no_resend (env : TickEnv) (g : Option Nat)
    (st : BotState) (now : Int) (h : st.keyhost_notified_once = true) :
    (automation_tick env g st now).eff.credentialSends = 0 := by
  have hf := (checkin_block_frame env g st now).2.2
  unfold automation_tick
  dsimp only
  split_ifs with hA hB
  · rfl
  · exfalso
    have h3 : (close_step (checkin_block env g st now).st now).keyhost_notified_once
        = true := by
      rw [close_step_flag, hf, h]
    have h4 := auto_key_due_false_of_flag _ now h3
    rw [h4] at hB
    cases hB
  · rfl

/-- C1 (counterexample): `keyhost_notify_once` itself carries no idempotency
guard.  From a PREP state with every external call succeeding, a first call
delivers one credential message and reports success, and a second immediate
call (same match, no round advance) again delivers a credential message and
again reports success instead of being a no-op — two credentials in total. -/
theorem C1_distribute_twice_counterexample :
    (keyhost_notify_once khAllOk prepState 1320).2.2 = 1 ∧
    (keyhost_notify_once khAllOk prepState 1320).2.1 = true ∧
    (keyhost_notify_once khAllOk
        (keyhost_notify_once khAllOk prepState 1320).1 1320).2.2 = 1 ∧
    (keyhost_notify_once khAllOk
        (keyhost_notify_once khAllOk prepState 1320).1 1320).2.1 = true := by
  decide

/-- C1 (amended): at-most-once distribution holds one level up, in the
automation loop, via the persisted `keyhost_notified_once` guard.  In the
claimed scenario (round 1, `auto_enabled`, configured start 22:00,
`now = 22:00`, no blackout) the tick fires the distribution exactly once and
sets the guard, and the next tick 15 seconds later (still `"22:00"`) does
not fire again. -/
theorem C1_distribute_once_amended :
    (automation_tick tickEnvA none tickStateA 1320).eff.credentialSends = 1 ∧
    (automation_tick tickEnvA none tickStateA 1320).st.keyhost_notified_once
      = true ∧
    (automation_tick tickEnvA none
        (automation_tick tickEnvA none tickStateA 1320).st
        1320).eff.credentialSends = 0 := by
  decide

/-- C3: with `planned_departure = 22:15` and the keyhost confirming at
`now = 22:00`, `queue_ready` records `confirmed_time = 22:02`
(`now + 2min`), NOT `max(planned, now + 2min) = 22:15`: the planned-time
comparison raises `NameError` (undefined `parse_hhmm`) and is skipped, so
the invariant `confirmed_time ≥ planned_time` is violated while the source's
own comment at line 2717 states the max behaviour as the spec. -/
theorem C3_confirm_departure_bug :
    (queue_ready ({} : QrEnv) confirmState 1320 1320).departure_time
      = some 1322 ∧
    (queue_ready ({} : QrEnv) confirmState 1320 1320).phase
      = "DEPART_CONFIRMED" ∧
    confirmState.planned_departure = some 1335 ∧ (1322 : Int) < 1335 := by
  decide

/-- C4: the deferral half works — a submission processed at 22:07 inside the
pause window `[22:06, 22:10)` arms `pending_keyhost_send_at = 22:10`,
announces the deferral, and sends nothing.  The release half is dead code: a
tick at 22:30 (event day, pause over, deadline long elapsed) leaves the
armed state completely unchanged and distributes nothing, because the
release block's `parse_hhmm` call raises `NameError` on every tick. -/
theorem C4_deferred_release_bug :
    ((after_submit_common khAllOk pauseSubmitState 1327).1.pending_keyhost_send
        = true ∧
     (after_submit_common khAllOk pauseSubmitState 1327).1.pending_keyhost_send_at
        = some 1330 ∧
     (after_submit_common khAllOk pauseSubmitState 1327).2.1 = true ∧
     (after_submit_common khAllOk pauseSubmitState 1327).2.2 = 0) ∧
    ((automation_tick tickEnvA none pendingTickState 1350).st
        = pendingTickState ∧
     (automation_tick tickEnvA none pendingTickState 1350).eff.credentialSends
        = 0) := by
  decide

/-- C6 (counterexample): with `ranked_targets = [A, blank, C]` and stage 0,
the third "result missing" report does NOT notify C and does NOT advance the
stage to 2: the stage is still stuck at 1 on the blank rank-2 slot, so the
third call notifies nobody and leaves the stage at 1. -/
theorem C6_ranked_scenario_counterexample :
    (replay_forgot escEnv
        (replay_forgot escEnv (replay_forgot escEnv escState 1).1 1).1 1).2
      = none ∧
    (replay_forgot escEnv
        (replay_forgot escEnv (replay_forgot escEnv escState 1).1 1).1
        1).1.replay_rank_stage = 1 := by
  decide

/-- C6 (amended): with `ranked_targets = [A, blank, C]` the first report
notifies A and advances the stage to 1; every later report re-reads the
blank rank-2 slot, notifies nobody and leaves the stage at 1 — the
escalation is permanently stuck at the gap and C is never contacted. -/
theorem C6_ranked_scenario_amended :
    (replay_forgot escEnv escState 1).2 = some "001" ∧
    (replay_forgot escEnv escState 1).1.replay_rank_stage = 1 ∧
    (replay_forgot escEnv (replay_forgot escEnv escState 1).1 1).2 = none ∧
    (replay_forgot escEnv
        (replay_forgot escEnv escState 1).1 1).1.replay_rank_stage = 1 ∧
    (replay_forgot escEnv
        (replay_forgot escEnv (replay_forgot escEnv escState 1).1 1).1 1).2
      = none ∧
    (replay_forgot escEnv
        (replay_forgot escEnv (replay_forgot escEnv escState 1).1 1).1
        1).1.replay_rank_stage = 1 := by
  decide

/-- C8 (counterexample): the full reset does not abort a pending deferred
send — after `reset_to_before_match1` on a state with an armed
`pending_keyhost_send_at = 22:10`, the marker and the flag are still set. -/
theorem C8_full_reset_counterexample :
    (reset_to_before_match1 pendSt 1320).pending_keyhost_send = true ∧
    (reset_to_before_match1 pendSt 1320).pending_keyhost_send_at
      = some 1330 ∧
    ¬ (reset_to_before_match1 pendSt 1320).pending_keyhost_send_at = none := by
  decide

/-- C8 (amended): the full reset sets `match_no = 1` and `phase = INIT`,
preserves the configuration (channel ids, ops-panel ids, mode, match count,
match-1 start), clears the round/automation fields (credential, planned and
confirmed times, blackout window, automation and notified-once flags,
emergency stop, message-id caches, replay-request maps), re-seeds
`planned_departure` with the configured tournament start — but leaves the
dynamically attached pending-send marker fields untouched. -/
theorem C8_full_reset_amended (st : BotState) (t0cfg : Int) :
    (reset_to_before_match1 st t0cfg).match_no = 1 ∧
    (reset_to_before_match1 st t0cfg).phase = "INIT" ∧
    (reset_to_before_match1 st t0cfg).key_channel_id = st.key_channel_id ∧
    (reset_to_before_match1 st t0cfg).keyhost_channel_id
      = st.keyhost_channel_id ∧
    (reset_to_before_match1 st t0cfg).commentary_channel_id
      = st.commentary_channel_id ∧
    (reset_to_before_match1 st t0cfg).ops_panel_channel_id
      = st.ops_panel_channel_id ∧
    (reset_to_before_match1 st t0cfg).ops_panel_message_id
      = st.ops_panel_message_id ∧
    (reset_to_before_match1 st t0cfg).mode = st.mode ∧
    (reset_to_before_match1 st t0cfg).match_count = st.match_count ∧
    (reset_to_before_match1 st t0cfg).match1_start = st.match1_start ∧
    (reset_to_before_match1 st t0cfg).custom_key = none ∧
    (reset_to_before_match1 st t0cfg).planned_departure = some t0cfg ∧
    (reset_to_before_match1 st t0cfg).departure_time = none ∧
    (reset_to_before_match1 st t0cfg).display_date_override = none ∧
    (reset_to_before_match1 st t0cfg).map_switch_time = none ∧
    (reset_to_before_match1 st t0cfg).map_switch_hhmm = none ∧
    (reset_to_before_match1 st t0cfg).map_remaining_min = none ∧
    (reset_to_before_match1 st t0cfg).key_pause_from = none ∧
    (reset_to_before_match1 st t0cfg).key_pause_to = none ∧
    (reset_to_before_match1 st t0cfg).auto_enabled = false ∧
    (reset_to_before_match1 st t0cfg).checkin_closed = false ∧
    (reset_to_before_match1 st t0cfg).keyhost_notified_once = false ∧
    (reset_to_before_match1 st t0cfg).uncheckin_numbers = none ∧
    (reset_to_before_match1 st t0cfg).emergency_stop = false ∧
    (reset_to_before_match1 st t0cfg).last_key_image_msg_id = none ∧
    (reset_to_before_match1 st t0cfg).last_key_embed_msg_id = none ∧
    (reset_to_before_match1 st t0cfg).last_keyhost_image_msg_id = none ∧
    (reset_to_before_match1 st t0cfg).last_keyhost_key_msg_id = none ∧
    (reset_to_before_match1 st t0cfg).replay_request_message_ids = [] ∧
    (reset_to_before_match1 st t0cfg).replay_request_channel_ids = [] ∧
    (reset_to_before_match1 st t0cfg).delete_at_iso = none ∧
    (reset_to_before_match1 st t0cfg).used_keys = st.used_keys ∧
    (reset_to_before_match1 st t0cfg).pending_next_match_no
      = st.pending_next_match_no ∧
    (reset_to_before_match1 st t0cfg).pending_keyhost_send
      = st.pending_keyhost_send ∧
    (reset_to_before_match1 st t0cfg).pending_keyhost_send_at
      = st.pending_keyhost_send_at := by
  exact ⟨rfl, rfl, rfl, rfl, rfl, rfl, rfl, rfl, rfl, rfl, rfl, rfl, rfl,
    rfl, rfl, rfl, rfl, rfl, rfl, rfl, rfl, rfl, rfl, rfl, rfl, rfl, rfl,
    rfl, rfl, rfl, rfl, rfl, rfl, rfl, rfl⟩

/-- C9 (counterexample): the armed deferred-send marker is round state that
does not survive the save/reload round trip: it is not a dataclass field, so
`asdict` never writes it and `load_state` restores the defaults. -/
theorem C9_crash_recovery_counterexample :
    pendSt.pending_keyhost_send = true ∧
    pendSt.pending_keyhost_send_at = some 1330 ∧
    (save_load_roundtrip pendSt).pending_keyhost_send = false ∧
    (save_load_roundtrip pendSt).pending_keyhost_send_at = none ∧
    (save_load_roundtrip pendSt).pending_next_match_no = none := by
  decide

/-- C2: for any state with `round_number ≥ 1` and any
`remaining_minutes ≥ 0`, both pause calculators record
`switch_time = now + remaining_minutes`, `blackout_to = switch_time`,
`blackout_from = switch_time - lead` with `blackout_from ≤ blackout_to`,
and `lead = 7` iff `round_number = 1` (else 4). -/
theorem C2_blackout_correctness (st stB : BotState) (now nowB rem remB : Int)
    (h1 : 0 ≤ rem) (h2 : 1 ≤ st.match_no)
    (h3 : stB.map_remaining_min = some remB) (h4 : 0 ≤ remB)
    (h5 : 1 ≤ stB.match_no) :
    ((apply_map_remaining_minutes st now rem).map_switch_time
        = some (hhmm (now + rem)) ∧
     (apply_map_remaining_minutes st now rem).key_pause_to
        = some (hhmm (now + rem)) ∧
     (apply_map_remaining_minutes st now rem).key_pause_from
        = some (hhmm (now + rem - (if st.match_no = 1 then 7 else 4))) ∧
     now + rem - (if st.match_no = 1 then 7 else 4) ≤ now + rem ∧
     ((if st.match_no = (1 : Int) then (7 : Int) else 4) = 7
        ↔ st.match_no = 1)) ∧
    ((recompute_pause_window_from_state stB nowB).map_switch_time
        = some (hhmm (nowB + remB)) ∧
     (recompute_pause_window_from_state stB nowB).key_pause_to
        = some (hhmm (nowB + remB)) ∧
     (recompute_pause_window_from_state stB nowB).key_pause_from
        = some (hhmm (nowB + remB - (if stB.match_no = 1 then 7 else 4))) ∧
     nowB + remB - (if stB.match_no = 1 then 7 else 4) ≤ nowB + remB ∧
     ((if stB.match_no = (1 : Int) then (7 : Int) else 4) = 7
        ↔ stB.match_no = 1)) := by
  have e1 : pyIntOr1 st.match_no = st.match_no := if_neg (by omega)
  have e2 : pyIntOr1 stB.match_no = stB.match_no := if_neg (by omega)
  have m1 : max (0 : Int) rem = rem := max_eq_right h1
  have m2 : max (0 : Int) remB = remB := max_eq_right h4
  constructor
  · unfold apply_map_remaining_minutes
    dsimp only
    rw [e1, m1]
    refine ⟨rfl, rfl, rfl, by split_ifs <;> omega, ?_⟩
    by_cases h : st.match_no = 1 <;> simp [h]
  · unfold recompute_pause_window_from_state
    rw [h3]
    dsimp only
    rw [e2, m2]
    refine ⟨rfl, rfl, rfl, by split_ifs <;> omega, ?_⟩
    by_cases h : stB.match_no = 1 <;> simp [h]

/-- C2 witness: round 1, now 22:00, 12 remaining minutes gives the window
`[22:05, 22:12)`; round 2 with 5 recorded remaining minutes at absolute
minute 900 gives `pause_to = 15:05`. -/
theorem C2_blackout_correctness_witness :
    (apply_map_remaining_minutes pauseSt1 1320 12).key_pause_from
      = some 1325 ∧
    (apply_map_remaining_minutes pauseSt1 1320 12).key_pause_to
      = some 1332 ∧
    (recompute_pause_window_from_state pauseSt2 900).key_pause_from
      = some 901 ∧
    (recompute_pause_window_from_state pauseSt2 900).key_pause_to
      = some 905 := by
  have h := C2_blackout_correctness pauseSt1 pauseSt2 1320 900 12 5
    (by norm_num) (by decide) rfl (by norm_num) (by decide)
  refine ⟨?_, ?_, ?_, ?_⟩
  · simpa [pauseSt1, hhmm] using h.1.2.2.1
  · simpa [pauseSt1, hhmm] using h.1.2.1
  · simpa [pauseSt2, hhmm] using h.2.2.2.1
  · simpa [pauseSt2, hhmm] using h.2.2.1

lemma rank_slot_le_two {st : BotState} {stage : Int} {num : String}
    (h : rank_slot st stage = some num) : stage ≤ 2 := by
  unfold rank_slot at h
  split_ifs at h with h1 h2 h3 <;> omega

lemma replay_forgot_step_mono (env : RfEnv) (st : BotState) (m : Int)
    (h : st.replay_rank_match_no = some m) :
    (replay_forgot env st m).1.replay_rank_match_no = some m ∧
    st.replay_rank_stage ≤ (replay_forgot env st m).1.replay_rank_stage := by
  unfold replay_forgot
  rw [if_neg (by simp [h])]
  dsimp only
  cases hslot : rank_slot st st.replay_rank_stage with
  | none => exact ⟨h, le_refl _⟩
  | some num =>
      dsimp only
      by_cases hf : (env.channelFound && env.sendOk) = true
      · rw [if_pos hf]
        have h2 := rank_slot_le_two hslot
        refine ⟨h, ?_⟩
        dsimp only
        omega
      · rw [if_neg hf]
        exact ⟨h, le_refl _⟩

lemma replay_forgot_seq_mono (envs : List RfEnv) (st : BotState) (m : Int)
    (h : st.replay_rank_match_no = some m) :
    st.replay_rank_stage ≤ (replay_forgot_seq envs st m).replay_rank_stage := by
  induction envs generalizing st with
  | nil => exact le_refl _
  | cons e es ih =>
      have hs := replay_forgot_step_mono e st m h
      exact le_trans hs.2 (ih (replay_forgot e st m).1 hs.1)

/-- C5: for a report tied to the current round, the escalation stage never
decreases — both over one report and over any sequence of reports; it
changes only when the current ranked slot is configured and the channel send
actually succeeded (the notified number is returned); and a report made
while the current ranked slot is blank changes nothing and notifies
nobody. -/
theorem C5_escalation_monotone (env : RfEnv) (st : BotState) (m : Int)
    (h : st.replay_rank_match_no = some m) :
    st.replay_rank_stage ≤ (replay_forgot env st m).1.replay_rank_stage ∧
    ((replay_forgot env st m).1.replay_rank_stage ≠ st.replay_rank_stage →
      env.channelFound = true ∧ env.sendOk = true ∧
      (replay_forgot env st m).2
        = rank_slot st st.replay_rank_stage ∧
      ((replay_forgot env st m).2).isSome = true) ∧
    (rank_slot st st.replay_rank_stage = none →
      (replay_forgot env st m).1 = st ∧ (replay_forgot env st m).2 = none) ∧
    (∀ envs : List RfEnv,
      st.replay_rank_stage ≤ (replay_forgot_seq envs st m).replay_rank_stage)
    := by
  refine ⟨(replay_forgot_step_mono env st m h).2, ?_, ?_, fun envs =>
    replay_forgot_seq_mono envs st m h⟩
  · unfold replay_forgot
    rw [if_neg (by simp [h])]
    dsimp only
    cases hslot : rank_slot st st.replay_rank_stage with
    | none => intro hne; exact absurd rfl hne
    | some num =>
        dsimp only
        by_cases hf : (env.channelFound && env.sendOk) = true
        · rw [if_pos hf]
          intro hne
          rcases Bool.and_eq_true_iff.mp hf with ⟨hc, hs⟩
          exact ⟨hc, hs, rfl, rfl⟩
        · rw [if_neg hf]
          intro hne
          exact absurd rfl hne
  · intro hslot
    unfold replay_forgot
    rw [if_neg (by simp [h])]
    dsimp only
    rw [hslot]
    exact ⟨rfl, rfl⟩

/-- C5 witness: a configured rank-1 target for the current match, stage 0:
the monotone bound and the successful-notify condition hold concretely. -/
theorem C5_escalation_monotone_witness :
    escStateB.replay_rank_stage
      ≤ (replay_forgot escEnv escStateB 4).1.replay_rank_stage ∧
    (replay_forgot escEnv escStateB 4).2 = some "002" := by
  have h := C5_escalation_monotone escEnv escStateB 4 rfl
  exact ⟨h.1, by decide⟩

lemma generate_key_aux_unused (draws : Nat → Nat) (used : String → Bool) :
    ∀ fuel i, (∃ j, j < fuel ∧ used (key_of (draws (i + j) % 10000)) = false) →
      used (generate_key_aux draws used i fuel) = false := by
  intro fuel
  induction fuel with
  | zero =>
      rintro i ⟨j, hj, -⟩
      omega
  | succ n ih =>
      rintro i ⟨j, hj, hu⟩
      unfold generate_key_aux
      by_cases hk : used (key_of (draws i % 10000)) = true
      · dsimp only
        rw [if_pos hk]
        refine ih (i + 1) ⟨j - 1, ?_, ?_⟩
        · rcases Nat.eq_zero_or_pos j with rfl | hpos
          · rw [Nat.add_zero] at hu
            rw [hu] at hk
            cases hk
          · omega
        · have hjne : j ≠ 0 := by
            rintro rfl
            rw [Nat.add_zero] at hu
            rw [hu] at hk
            cases hk
          rw [show i + 1 + (j - 1) = i + j by omega]
          exact hu
      · dsimp only
        rw [if_neg hk]
        exact Bool.not_eq_true _ ▸ Bool.of_not_eq_true hk

/-- C7 (amended): the generator is duplicate-free exactly as far as its
bounded retry reaches: whenever at least one of the 20000 sampled candidates
is outside the history, the returned credential is outside the history.
When all 20000 samples hit the history, the final fallback line returns one
more sample without checking it and without raising any error. -/
theorem C7_generator_amended (draws : Nat → Nat) (used : String → Bool)
    (h : ∃ j, j < 20000 ∧ used (key_of (draws j % 10000)) = false) :
    used (generate_key draws used) = false := by
  unfold generate_key
  refine generate_key_aux_unused draws used 20000 0 ?_
  obtain ⟨j, hj, hu⟩ := h
  exact ⟨j, hj, by simpa using hu⟩

/-- C7 witness: against an empty history every sample is unused, and the
returned credential is indeed unused. -/
theorem C7_generator_amended_witness :
    (fun _ : String => false) (generate_key (fun _ => 7) (fun _ => false))
      = false :=
  C7_generator_amended (fun _ => 7) (fun _ => false)
    ⟨0, by norm_num, rfl⟩

lemma generate_key_aux_all (draws : Nat → Nat) (used : String → Bool)
    (hall : ∀ j, used (key_of (draws j % 10000)) = true) :
    ∀ fuel i, generate_key_aux draws used i fuel
      = key_of (draws (i + fuel) % 10000) := by
  intro fuel
  induction fuel with
  | zero => intro i; simp [generate_key_aux]
  | succ n ih =>
      intro i
      unfold generate_key_aux
      dsimp only
      rw [if_pos (hall i), ih (i + 1),
        show i + 1 + n = i + (n + 1) by omega]

lemma allKeys_contains (n : Nat) : allKeys.contains (key_of (n % 10000)) = true := by
  refine List.elem_eq_true_of_mem ?_
  exact List.mem_map_of_mem key_of
    (List.mem_range.mpr (Nat.mod_lt _ (by norm_num)))

/-- C7 (counterexample): when the whole credential space is already in the
persisted history, all 20000 attempts fail and `generate_key` still returns
normally — a credential that IS in the history — instead of surfacing a
fatal error. -/
theorem C7_generator_counterexample :
    allKeys.contains
      (generate_key (fun _ => 0) (fun s => allKeys.contains s)) = true := by
  have hall : ∀ j, (fun s => allKeys.contains s)
      (key_of ((fun _ : Nat => 0) j % 10000)) = true := fun j =>
    allKeys_contains 0
  unfold generate_key
  rw [generate_key_aux_all (fun _ => 0) (fun s => allKeys.contains s) hall
    20000 0]
  exact allKeys_contains 0

/-- C9 (amended): the save/reload round trip preserves every dataclass
field (round number, phase, credential, times, pause window, automation
flags, per-day checkin guards, credential history, escalation stage), and a
tick re-run after the reload neither re-sends a credential whose
`keyhost_notified_once` flag is set nor re-fires any checkin phase whose
sent-date guard already records today.  Only the dynamically attached
pending-send marker does not survive (see the counterexample). -/
theorem C9_crash_recovery_amended (env : TickEnv) (g : Option Nat)
    (st : BotState) (now : Int) :
    ((save_load_roundtrip st).match_no = st.match_no ∧
     (save_load_roundtrip st).phase = st.phase ∧
     (save_load_roundtrip st).keyhost_notified_once
        = st.keyhost_notified_once ∧
     (save_load_roundtrip st).custom_key = st.custom_key ∧
     (save_load_roundtrip st).planned_departure = st.planned_departure ∧
     (save_load_roundtrip st).departure_time = st.departure_time ∧
     (save_load_roundtrip st).key_pause_from = st.key_pause_from ∧
     (save_load_roundtrip st).key_pause_to = st.key_pause_to ∧
     (save_load_roundtrip st).auto_enabled = st.auto_enabled ∧
     (save_load_roundtrip st).checkin_closed = st.checkin_closed ∧
     (save_load_roundtrip st).emergency_stop = st.emergency_stop ∧
     (save_load_roundtrip st).checkin_phase1_sent_date
        = st.checkin_phase1_sent_date ∧
     (save_load_roundtrip st).checkin_phase2_sent_date
        = st.checkin_phase2_sent_date ∧
     (save_load_roundtrip st).checkin_phase3_sent_date
        = st.checkin_phase3_sent_date ∧
     (save_load_roundtrip st).checkin_phase4_sent_date
        = st.checkin_phase4_sent_date ∧
     (save_load_roundtrip st).used_keys = st.used_keys ∧
     (save_load_roundtrip st).replay_rank_stage = st.replay_rank_stage) ∧
    (st.keyhost_notified_once = true →
      (automation_tick env g (save_load_roundtrip st) now).eff.credentialSends
        = 0) ∧
    (st.checkin_phase1_sent_date = some env.today →
      (automation_tick env g (save_load_roundtrip st) now).eff.phase1Attempt
        = false) ∧
    (st.checkin_phase2_sent_date = some env.today →
      (automation_tick env g (save_load_roundtrip st) now).eff.phase2Attempt
        = false) ∧
    (st.checkin_phase3_sent_date = some env.today →
      (automation_tick env g (save_load_roundtrip st) now).eff.phase3Attempt
        = false) ∧
    (st.checkin_phase4_sent_date = some env.today →
      (automation_tick env g (save_load_roundtrip st) now).eff.phase4Attempt
        = false) := by
  refine ⟨⟨rfl, rfl, rfl, rfl, rfl, rfl, rfl, rfl, rfl, rfl, rfl, rfl, rfl,
    rfl, rfl, rfl, rfl⟩, ?_, ?_, ?_, ?_, ?_⟩
  · intro h
    exact automation_tick_no_resend env g _ now h
  · intro h
    rw [(automation_tick_eff_phases env g _ now).1]
    exact checkin_block_p1_of_sent env g _ now h
  · intro h
    rw [(automation_tick_eff_phases env g _ now).2.1]
    exact checkin_block_p2_of_sent env g _ now h
  · intro h
    rw [(automation_tick_eff_phases env g _ now).2.2.1]
    exact checkin_block_p3_of_sent env g _ now h
  · intro h
    rw [(automation_tick_eff_phases env g _ now).2.2.2]
    exact checkin_block_p4_of_sent env g _ now h

/-- C9 witness: reloading the mid-event day-77 snapshot and ticking at the
tournament start re-sends nothing and re-fires no checkin phase. -/
theorem C9_crash_recovery_amended_witness :
    (automation_tick crashEnv none (save_load_roundtrip crashSt)
        90000).eff.credentialSends = 0 ∧
    (automation_tick crashEnv none (save_load_roundtrip crashSt)
        90000).eff.phase1Attempt = false ∧
    (automation_tick crashEnv none (save_load_roundtrip crashSt)
        90000).eff.phase2Attempt = false ∧
    (automation_tick crashEnv none (save_load_roundtrip crashSt)
        90000).eff.phase3Attempt = false ∧
    (automation_tick crashEnv none (save_load_roundtrip crashSt)
        90000).eff.phase4Attempt = false := by
  have h := C9_crash_recovery_amended crashEnv none crashSt 90000
  exact ⟨h.2.1 rfl, h.2.2.1 rfl, h.2.2.2.1 rfl, h.2.2.2.2.1 rfl,
    h.2.2.2.2.2 rfl⟩

/-- C10: on the event day, once the `"HH:MM"` of `now` reaches the fixed
checkin-close time 21:58, a tick that finds checkin still open closes it
and switches `auto_enabled` on by itself; before 21:58 the tick leaves
`auto_enabled` (and `checkin_closed`) exactly as the operator last set
them. -/
theorem C10_auto_enable_at_close (env : TickEnv) (g : Option Nat)
    (st : BotState) (now : Int) (hday : env.eventDay = true) :
    (CHECKIN_CLOSE_MIN ≤ hhmm now → st.checkin_closed = false →
      (automation_tick env g st now).st.checkin_closed = true ∧
      (automation_tick env g st now).st.auto_enabled = true) ∧
    (hhmm now < CHECKIN_CLOSE_MIN →
      (automation_tick env g st now).st.auto_enabled = st.auto_enabled ∧
      (automation_tick env g st now).st.checkin_closed = st.checkin_closed)
    := by
  obtain ⟨fauto, fclosed, fflag⟩ := checkin_block_frame env g st now
  have hnd : ¬ env.eventDay = false := by simp [hday]
  constructor
  · intro h1 h2
    have hc := close_step_sets (checkin_block env g st now).st now h1
      (fclosed.trans h2)
    unfold automation_tick
    dsimp only
    rw [if_neg hnd]
    split_ifs with hB
    · have hk := keyhost_notify_once_frame env.kh
        (close_step (checkin_block env g st now).st now) now
      exact ⟨hk.2.trans hc.1, hk.1.trans hc.2⟩
    · exact ⟨hc.1, hc.2⟩
  · intro h1
    have he := close_step_id_of_early (checkin_block env g st now).st now h1
    have hdue : auto_key_due
        (close_step (checkin_block env g st now).st now) now = false :=
      auto_key_due_false_of_early _ now
        (by unfold CHECKIN_CLOSE_MIN at h1; unfold AUTO_KEYHOST_MIN; omega)
    unfold automation_tick
    dsimp only
    rw [if_neg hnd, hdue, if_neg (by simp)]
    dsimp only
    rw [he]
    exact ⟨fauto, fclosed⟩

/-- C10 witness: at exactly 21:58 on the event day, a tick on a state with
checkin open and automation off closes checkin and enables automation. -/
theorem C10_auto_enable_at_close_witness :
    (automation_tick tickEnvA none closeSt 1318).st.checkin_closed = true ∧
    (automation_tick tickEnvA none closeSt 1318).st.auto_enabled = true :=
  (C10_auto_enable_at_close tickEnvA none closeSt 1318 rfl).1 (by decide) rfl

end OR40
